import Mathlib

/-!
Shallow embedding of the workflow execution engine (bot_workflow).

Source files embedded here:
  - src/app/agent/workflow_executor.py  (graph routing, step handlers)
  - src/app/agent/wokflow_state.py      (WorkflowState dataclass)
  - src/app/agents/workflow_decorators.py (step-run journal wrapper)
  - src/app/agents/workflow_manager.py  (request processing / state seeding)

Python dict values are modelled by the inductive `Value`; Python dicts by
insertion-ordered association lists (`Ctx`) with unique keys, matching dict
assignment / `del` / `in` semantics.  External libraries (jinja2 template
parsing and rendering, Python `eval`, the MCP tool transport, the JSON-path
helper living in the missing app/utils/utilities.py, json.dumps escaping)
are modelled as explicit oracle parameters: each handler is a pure function
of the state, the step definition and the oracles, exactly mirroring the
control flow of the Python source.
-/

namespace BotWorkflow

/-- A Python value as stored in the workflow scratchpad dicts. -/
inductive Value where
  | vnull
  | vstr (s : String)
  | vint (n : Int)
  | vbool (b : Bool)
  deriving DecidableEq, Repr

/-- A Python dict with string keys: insertion-ordered assoc list, unique keys. -/
abbrev Ctx := List (String × Value)

namespace Ctx

/-- Dict lookup: `d.get(k)` (first binding wins; keys are kept unique). -/
def lookup (c : Ctx) (k : String) : Option Value :=
  match c with
  | [] => none
  | (k2, v) :: rest => if k2 = k then some v else lookup rest k

/-- Dict key-membership test: `k in d`. -/
def hasKey (c : Ctx) (k : String) : Bool :=
  match c with
  | [] => false
  | (k2, _) :: rest => if k2 = k then true else hasKey rest k

/-- Dict assignment `d[k] = v`: update in place if present, else append. -/
def set (c : Ctx) (k : String) (v : Value) : Ctx :=
  match c with
  | [] => [(k, v)]
  | (k2, v2) :: rest => if k2 = k then (k2, v) :: rest else (k2, v2) :: set rest k v

/-- Dict deletion `del d[k]`: removes every binding of the key (a Python
dict holds at most one). -/
def erase (c : Ctx) (k : String) : Ctx :=
  match c with
  | [] => []
  | (k2, v2) :: rest => if k2 = k then erase rest k else (k2, v2) :: erase rest k

end Ctx

/-- Python truthiness of an optional string (`None` and `""` are falsy). -/
def pyTruthyStr (o : Option String) : Bool :=
  match o with
  | none => false
  | some s => s ≠ ""

/-- Python truthiness of an optional dict (`None` and `{}` are falsy). -/
def pyTruthyCtx (o : Option Ctx) : Bool :=
  match o with
  | none => false
  | some c => c ≠ []

/-- Python `str()` of an optional string (`None` prints as "None"). -/
def pyStr (o : Option String) : String :=
  match o with
  | none => "None"
  | some s => s

/-- A `None`-able string stored into a dict slot. -/
def optVal (o : Option String) : Value :=
  match o with
  | none => Value.vnull
  | some s => Value.vstr s

/-- Python `str()` of a dict value (used when an exception message is built
from a mapped value). -/
def pyStrValue (v : Value) : String :=
  match v with
  | Value.vnull => "None"
  | Value.vstr s => s
  | Value.vint n => toString n
  | Value.vbool b => if b then "True" else "False"

/-- ASCII lowercasing of one character (Python `str.lower`, restricted to
the ASCII range the workflows use). -/
def lowerChar (c : Char) : Char :=
  if 65 ≤ c.toNat ∧ c.toNat ≤ 90 then Char.ofNat (c.toNat + 32) else c

/-- Python `str.lower()` (ASCII). -/
def pyLower (s : String) : String := String.mk (s.data.map lowerChar)

/-- The `a2a.types.TaskState` values used by the engine. -/
inductive TaskState where
  | working
  | input_required
  | completed
  | failed
  | canceled
  deriving DecidableEq, Repr

/-- A Python exception: its type name and its `str()` text. -/
structure Exn where
  etype : String
  msg : String
  deriving DecidableEq, Repr

/-- One orchestration rule dict; an `Option` field models key presence
(the source tests `"condition" in rule and "go_to_step" in rule`). -/
structure Rule where
  condition : Option String := none
  go_to_step : Option String := none
  deriving DecidableEq, Repr

/-- The `user_interaction` dict of a USER_INPUT / FINAL_RESPONSE step. -/
structure UserInteraction where
  user_message : Option String := none
  expected_data_key : List String := []
  orchestration_rules : Option (List Rule) := none
  deriving DecidableEq, Repr

/-- The `system_action_details` dict of a SYSTEM_ACTION step.  `inputs` and
`output_mapping` are fetched without a default (may be absent);
`error_mapping` and `success_mapping` default to `{}`. -/
structure SystemActionDetails where
  name : Option String := none
  inputs : Option Ctx := none
  error_mapping : Ctx := []
  success_mapping : Ctx := []
  output_mapping : Option Ctx := none
  deriving DecidableEq, Repr

/-- One step-definition dict from the workflow catalogue. -/
structure StepDetail where
  step_id : String
  type : String := ""
  next_step_id : Option String := none
  failure_message : Option String := none
  user_interaction : UserInteraction := {}
  system_action_details : SystemActionDetails := {}
  deriving DecidableEq, Repr

/-- WorkflowState, from src/app/agent/wokflow_state.py (fields of
CubeAssistBaseState inlined).  The scratchpad dict field keeps its source
name `workflow_state`; the `worflow_exit_keywords` typo is the source's. -/
structure WorkflowState where
  input : Option String := none
  input_data : Ctx := []
  token : Option String := none
  context_id : Option String := none
  is_new_conversation : Bool := true
  status : String := "in_progress"
  event_log : List String := []
  workflow_id : Option String := none
  workflow_run_id : Option String := none
  workflow_name : Option String := none
  worflow_exit_keywords : List String := []
  current_step_run_id : Option String := none
  go_to_step_id : Option String := none
  workflow_state : Ctx := []
  task_state : TaskState := TaskState.working
  output : Ctx := []
  step_ids : List String := []
  next_step_ids : List String := []
  start_step_id : Option String := none
  steps : List StepDetail := []
  user_id : Option String := none
  user_roles : List String := []
  deriving DecidableEq, Repr

/-- A conditional-edge decision: a concrete step node or the END sentinel. -/
inductive Target where
  | toStep (id : String)
  | toEnd
  deriving DecidableEq, Repr

/-- `step_ids_used_for_edges` from WorkflowExecutor.build_graph: the step ids
from `start_step_id` onward, or all step ids when the start is missing. -/
def step_ids_used_for_edges (step_ids : List String) (start_step_id : Option String) :
    List String :=
  match start_step_id with
  | some st => if st ∈ step_ids then step_ids.drop (step_ids.indexOf st) else step_ids
  | none => step_ids

/-- The status-driven tail of `should_continue` (everything after the
`go_to_step_id` check). -/
def should_continue_status (scope : List String) (next_step_id : Option String)
    (state : WorkflowState) : Target :=
  if state.task_state = TaskState.input_required then Target.toEnd
  else if state.task_state = TaskState.failed ∨ state.task_state = TaskState.canceled then
    Target.toEnd
  else
    match next_step_id with
    | some n => if n ≠ "" ∧ n ∈ scope then Target.toStep n else Target.toEnd
    | none => Target.toEnd

/-- `should_continue` from WorkflowExecutor.build_graph: the successor
function of the conditional edge attached to one step in edge-scope, with
the step's configured `next_step_id` captured.  Consuming `go_to_step_id`
mutates the state, so the result pairs the updated state with the target. -/
def should_continue (scope : List String) (next_step_id : Option String)
    (state : WorkflowState) : WorkflowState × Target :=
  match state.go_to_step_id with
  | some t =>
      if t = "" then (state, should_continue_status scope next_step_id state)
      else ({ state with go_to_step_id := none }, Target.toStep t)
  | none => (state, should_continue_status scope next_step_id state)

/-- The successor decision as the spec's C1 sentence describes it, for
comparison with `should_continue`: go-to first (returned and cleared), then
the three pausing/terminal task states, then the configured next step if it
lies in edge-scope, else END. -/
def successorSpec (scope : List String) (next_step_id : Option String)
    (state : WorkflowState) : WorkflowState × Target :=
  match state.go_to_step_id with
  | some t => ({ state with go_to_step_id := none }, Target.toStep t)
  | none =>
      if state.task_state = TaskState.input_required ∨ state.task_state = TaskState.failed
          ∨ state.task_state = TaskState.canceled then
        (state, Target.toEnd)
      else
        match next_step_id with
        | some n => if n ∈ scope then (state, Target.toStep n) else (state, Target.toEnd)
        | none => (state, Target.toEnd)

/-- Oracles for the external libraries the USER_INPUT handler calls:
`varsOf` is jinja2 `meta.find_undeclared_variables` after parsing a
template; `evalCond` is the render-then-`eval` of a rule condition (an
`error` is a raised evaluation exception, carrying its text); `renderT` is
a jinja2 render of a message template; `parseJson` is `json.loads`
restricted to object results (`none` is a JSONDecodeError). -/
structure UiOracles where
  varsOf : String → List String
  evalCond : String → Ctx → Except String Bool
  renderT : String → Ctx → String
  parseJson : String → Option Ctx

/-- The ValueError raised when a rule condition fails to evaluate: the
inner eval exception is wrapped once by the condition handler and once by
the per-rule handler (message text abbreviated; the source interpolates
the rule dict into it). -/
def ruleEvalExn (cond err : String) : Exn :=
  { etype := "ValueError",
    msg := "Invalid orchestration rule data, error: Failed to evaluate orchestration rule condition "
      ++ cond ++ ": " ++ err }

/-- The NameError raised by the cleanup loop when `template_variables` was
never bound (no rule carried both a condition and a go_to_step key). -/
def nameErrorTemplateVariables : Exn :=
  { etype := "NameError", msg := "name template_variables is not defined" }

/-- The TypeError raised by jinja2 when `from_string` receives `None`
(a USER_INPUT prompt or FINAL_RESPONSE without a `user_message`). -/
def typeErrorTemplateNone : Exn :=
  { etype := "TypeError", msg := "Can not compile non template nodes" }

/-- The orchestration-rule loop of `user_input_with_step`.  Walks the rules
in order; a rule missing either key leaves `template_variables` (the third
argument) unchanged; a parsed rule rebinds it to its own variables even
when the rule is skipped for missing variables; the first truthy condition
returns its target (the `break`); a raised evaluation error aborts the
loop.  Returns the winning target (if any) and the final binding of
`template_variables`. -/
def processRules (varsOf : String → List String) (evalCond : String → Ctx → Except String Bool) :
    List Rule → Ctx → Option (List String) → Except Exn (Option String × Option (List String))
  | [], _, lastVars => Except.ok (none, lastVars)
  | r :: rest, context, lastVars =>
    match r.condition, r.go_to_step with
    | some cond, some target =>
        let tvars := varsOf cond
        if tvars.all (fun v => context.hasKey v) then
          match evalCond cond context with
          | Except.error e => Except.error (ruleEvalExn cond e)
          | Except.ok true => Except.ok (some target, some tvars)
          | Except.ok false => processRules varsOf evalCond rest context (some tvars)
        else processRules varsOf evalCond rest context (some tvars)
    | _, _ => processRules varsOf evalCond rest context lastVars

/-- Copy the expected keys that are present in the user reply into the
scratchpad (`for key in expected_data_keys: if key in input_data: ...`). -/
def copyExpectedKeys (keys : List String) (src : Ctx) (dst : Ctx) : Ctx :=
  keys.foldl (fun w k =>
    match src.lookup k with
    | some v => w.set k v
    | none => w) dst

/-- Reply ingestion of the USER_INPUT resume branch.  Returns the updated
state and whether the `confirm_action` special case cancelled the run. -/
def ingestReply (ui : UserInteraction) (s : WorkflowState) : WorkflowState × Bool :=
  if s.input_data ≠ [] ∧ ui.expected_data_key.length > 0 then
    ({ s with workflow_state := copyExpectedKeys ui.expected_data_key s.input_data s.workflow_state },
      false)
  else
    match s.input, ui.expected_data_key with
    | some t, k0 :: _ =>
        if t ≠ "" then
          let s2 := { s with workflow_state := s.workflow_state.set k0 (Value.vstr t) }
          if k0 = "confirm_action" ∧ pyLower t ∈ ["no", "n"] then (s2, true) else (s2, false)
        else (s, false)
    | _, _ => (s, false)

/-- The exit-keyword test at the top of `user_input_with_step`
(`workflow_input_text and workflow_input_text.lower() in [...]`). -/
def exitHit (s : WorkflowState) : Bool :=
  pyTruthyStr s.input
    && decide (pyLower (pyStr s.input) ∈ s.worflow_exit_keywords.map pyLower)

/-- The resume-branch guard of `user_input_with_step`: an existing
conversation, at the step the run is waiting on, with no pending go-to. -/
def resumeMode (step_id : String) (s : WorkflowState) : Bool :=
  !s.is_new_conversation && decide (s.start_step_id = some step_id)
    && !pyTruthyStr s.go_to_step_id

/-- Set every listed variable to `None` in a dict (the cleanup loop). -/
def nullOutVars (tvars : List String) (c : Ctx) : Ctx :=
  tvars.foldl (fun w v => w.set v Value.vnull) c

/-- The orchestration-rules block of the resume branch, applied to the
post-ingestion state: run the rule loop, set go-to-step-id on a win, null
out the `template_variables` left by the loop (a NameError when no rule
was ever parsed), and complete. -/
def resumeRulesPhase (o : UiOracles) (rules0 : Option (List Rule)) (s1 : WorkflowState) :
    Except Exn WorkflowState :=
  match rules0 with
  | some rules =>
      if rules ≠ [] then
        match processRules o.varsOf o.evalCond rules s1.workflow_state none with
        | Except.error e => Except.error e
        | Except.ok (go, lastVars) =>
            let s2 := match go with
              | some t => { s1 with go_to_step_id := some t }
              | none => s1
            match lastVars with
            | none => Except.error nameErrorTemplateVariables
            | some tvars =>
                Except.ok { s2 with
                  workflow_state := nullOutVars tvars s2.workflow_state,
                  input_data := nullOutVars tvars s2.input_data,
                  task_state := TaskState.completed }
      else Except.ok { s1 with task_state := TaskState.completed }
  | none => Except.ok { s1 with task_state := TaskState.completed }

/-- `user_input_with_step` from WorkflowExecutor: exit-keyword check, then
either the resume branch (reply ingestion, confirm_action decline,
orchestration rules, cleanup of the last-parsed rule variables, completed)
or the prompt branch (clear go-to, render the prompt, input-required). -/
def user_input_with_step (o : UiOracles) (step_detail : StepDetail) (s0 : WorkflowState) :
    Except Exn WorkflowState :=
  let ui := step_detail.user_interaction
  if exitHit s0 then
    Except.ok { s0 with
      task_state := TaskState.canceled,
      output := [("summary", Value.vstr ("Workflow " ++ pyStr s0.workflow_id ++ " ("
        ++ pyStr s0.workflow_name ++ ") terminated."))] }
  else if resumeMode step_detail.step_id s0 then
    let ingested := ingestReply ui s0
    let s1 := ingested.1
    if ingested.2 then
      Except.ok { s1 with
        task_state := TaskState.canceled,
        output := [("summary", Value.vstr "Action cancelled by user")] }
    else
      resumeRulesPhase o ui.orchestration_rules s1
  else
    let s1 := { s0 with go_to_step_id := none }
    match ui.user_message with
    | none => Except.error typeErrorTemplateNone
    | some msg =>
        let rendered := o.renderT msg s1.workflow_state
        let out := match o.parseJson rendered with
          | some obj => obj
          | none => [("summary", Value.vstr rendered)]
        Except.ok { s1 with output := out, task_state := TaskState.input_required }

/-- `final_response_with_step` from WorkflowExecutor: clear go-to, render
the `user_message` (failed when absent), parse as JSON or wrap as a
summary, completed. -/
def final_response_with_step (o : UiOracles) (step_detail : StepDetail)
    (s0 : WorkflowState) : Except Exn WorkflowState :=
  let s1 := { s0 with go_to_step_id := none }
  match step_detail.user_interaction.user_message with
  | none => Except.ok { s1 with task_state := TaskState.failed }
  | some msg =>
      let rendered := o.renderT msg s1.workflow_state
      let out := match o.parseJson rendered with
        | some obj => obj
        | none => [("summary", Value.vstr rendered)]
      Except.ok { s1 with output := out, task_state := TaskState.completed }

/-- The result of the MCP tool invocation under the 45-second budget:
a wall-clock timeout, a raised transport/decode/tool exception (its
`str()` text), or a decoded JSON reply. -/
inductive ToolOutcome where
  | timeout
  | raised (msg : String)
  | reply (doc : Ctx)
  deriving DecidableEq, Repr

/-- Oracles for `system_control_with_step`: the JSON-path helper
(`Utilities.resolve_jsonpath_in_params` and
`Utilities.extract_json_path_value`, which live in app/utils/utilities.py,
a module not present under src/), the `json.dumps` inner-text escaping of
string values, and the tool-call outcome. -/
structure SysOracles where
  resolve : Ctx → Ctx → Ctx
  extract : Ctx → Value → Value
  escape : String → String
  outcome : ToolOutcome

/-- The AttributeError raised by `workflow_state.inputs[key] = ...`: the
WorkflowState dataclass (src/app/agent/wokflow_state.py) declares no field
named `inputs`, so the attribute read on the first success_mapping entry
raises before any assignment. -/
def attributeErrorNoInputs : Exn :=
  { etype := "AttributeError", msg := "WorkflowState object has no attribute inputs" }

/-- The parameter-resolution phase of `system_control_with_step`: when the
step has (truthy) inputs, `token` and `user_id` are set into the
scratchpad, the JSON-path helper resolves the parameter tree against the
augmented scratchpad, and both keys are deleted again.  Returns the state
after the phase and the resolved parameters. -/
def resolveInputsPhase (resolve : Ctx → Ctx → Ctx) (sa : SystemActionDetails)
    (s : WorkflowState) : WorkflowState × Option Ctx :=
  match sa.inputs with
  | some p =>
      if p ≠ [] then
        let aug := (s.workflow_state.set "token" (optVal s.token)).set "user_id"
          (optVal s.user_id)
        let rp := resolve p aug
        ({ s with workflow_state := (aug.erase "token").erase "user_id" }, some rp)
      else (s, some p)
  | none => (s, none)

/-- The output_mapping loop: extract each value from the tool reply,
JSON-escape string values (outer quotes stripped), assign into the
scratchpad. -/
def applyOutputMapping (extract : Ctx → Value → Value) (escape : String → String)
    (m : Ctx) (reply : Ctx) (ws : Ctx) : Ctx :=
  m.foldl (fun w kv =>
    let ev := extract reply kv.2
    let ev2 := match ev with
      | Value.vstr s => Value.vstr (escape s)
      | v => v
    w.set kv.1 ev2) ws

/-- The output_mapping block: skipped entirely when the mapping is absent
or empty (Python truthiness), else the loop writes into the scratchpad. -/
def outputMappingPhase (extract : Ctx → Value → Value) (escape : String → String)
    (output_mapping : Option Ctx) (doc : Ctx) (s1 : WorkflowState) : WorkflowState :=
  match output_mapping with
  | some m =>
      if m ≠ [] then
        { s1 with workflow_state := applyOutputMapping extract escape m doc s1.workflow_state }
      else s1
  | none => s1

/-- `system_control_with_step` from WorkflowExecutor: resolve the inputs
(with the ephemeral token/user_id augmentation), call the tool under the
45-second budget, map timeouts and raised errors to a failed state with an
output summary, treat a mapped `error_status == "error"` as a raised
error, then apply success_mapping (which raises AttributeError on any
non-empty mapping, see `attributeErrorNoInputs`) and output_mapping, and
complete. -/
def system_control_with_step (o : SysOracles) (step_detail : StepDetail)
    (s0 : WorkflowState) : Except Exn WorkflowState :=
  let sa := step_detail.system_action_details
  let tool_name := sa.name
  let s1 := (resolveInputsPhase o.resolve sa s0).1
  match o.outcome with
  | ToolOutcome.timeout =>
      Except.ok { s1 with
        task_state := TaskState.failed,
        output := [("summary", Value.vstr ("Tool execution timeout: " ++ pyStr tool_name))] }
  | ToolOutcome.raised m =>
      Except.ok { s1 with
        task_state := TaskState.failed,
        output := [("summary", Value.vstr m)] }
  | ToolOutcome.reply doc =>
      let em := o.resolve sa.error_mapping doc
      if em.lookup "error_status" = some (Value.vstr "error") then
        let emsg := match em.lookup "error_message" with
          | some v => pyStrValue v
          | none => "Tool " ++ pyStr tool_name ++ " returned error"
        Except.ok { s1 with
          task_state := TaskState.failed,
          output := [("summary", Value.vstr emsg)] }
      else if sa.success_mapping ≠ [] then
        Except.error attributeErrorNoInputs
      else
        let s2 := outputMappingPhase o.extract o.escape sa.output_mapping doc s1
        Except.ok { s2 with task_state := TaskState.completed }

/-- The `error_response` column document: either built from a failed
handler state (the if-chain) or from a raised exception (the except
block, carrying `str(e)` and `type(e).__name__`). -/
inductive ErrorRespDoc where
  | fromOutput (error : Ctx) (step_id : String) (workflow_run_id : Option String)
      (step_run_id : Option String)
  | fromExn (error : String) (failure_message : String) (step_id : String)
      (workflow_run_id : Option String) (step_run_id : Option String)
      (exception_type : String)
  deriving DecidableEq, Repr

/-- The `success_response` column document.  `next_step` is doubly
optional: the canceled-row shape omits the key entirely. -/
structure SuccessDoc where
  success : Bool := true
  step_completed : String
  next_step : Option (Option String) := none
  workflow_run_id : Option String
  step_run_id : Option String
  step_output : Ctx
  status : String
  deriving DecidableEq, Repr

/-- The `workflow_state` column document: the scratchpad dict on normal
rows, or the composite error document the except block assembles. -/
inductive SnapshotDoc where
  | plain (ws : Ctx)
  | errorDoc (inputs : Ctx) (output : Ctx) (step_ids : List String)
      (next_step_ids : List String) (start_step_id : Option String)
      (workflow_id : Option String) (workflow_run_id : Option String)
      (current_step_run_id : Option String) (error_details : ErrorRespDoc)
  deriving DecidableEq, Repr

/-- One row of the `workflow_run` table, keyed by `step_run_id`. -/
structure JournalRow where
  workflow_run_id : Option String
  step_run_id : String
  workflow_id : Option String
  step_id : String
  started_at : Nat
  completed_at : Option Nat := none
  status : TaskState
  workflow_state_col : SnapshotDoc
  success_response : Option SuccessDoc := none
  error_response : Option ErrorRespDoc := none
  created_at : Nat
  created_by : String := "system"
  updated_at : Option Nat := none
  updated_by : Option String := none
  deriving DecidableEq, Repr

abbrev Journal := List JournalRow

/-- `INSERT ... ON CONFLICT (step_run_id) DO UPDATE`: update every row with
the key via the query-specific column merge `upd old new`, or append. -/
def upsertWith (j : Journal) (r : JournalRow) (upd : JournalRow → JournalRow → JournalRow) :
    Journal :=
  if j.any (fun row => row.step_run_id = r.step_run_id) then
    j.map (fun row => if row.step_run_id = r.step_run_id then upd row r else row)
  else j ++ [r]

/-- Column merge of the initial (working) upsert. -/
def updInitial (old new : JournalRow) : JournalRow :=
  { old with
    started_at := new.started_at,
    status := new.status,
    workflow_state_col := new.workflow_state_col,
    updated_at := some new.created_at,
    updated_by := some new.created_by }

/-- Column merge of the completion upsert. -/
def updCompletion (old new : JournalRow) : JournalRow :=
  { old with
    completed_at := new.completed_at,
    status := new.status,
    workflow_state_col := new.workflow_state_col,
    success_response := new.success_response,
    error_response := new.error_response,
    updated_at := new.updated_at,
    updated_by := new.updated_by }

/-- Column merge of the error upsert (no success_response column). -/
def updError (old new : JournalRow) : JournalRow :=
  { old with
    completed_at := new.completed_at,
    status := new.status,
    workflow_state_col := new.workflow_state_col,
    error_response := new.error_response,
    updated_at := new.updated_at,
    updated_by := new.updated_by }

/-- Find the row of a step-run id. -/
def findRow (j : Journal) (id : String) : Option JournalRow :=
  j.find? (fun row => row.step_run_id = id)

/-- The status chain of the completion upsert: journal status, the two
response documents, and the result state (the failed/canceled branches
write `execution_phase` into the state's own scratchpad dict, which the
snapshot aliases). -/
def journalOutcome (step_detail : StepDetail) (workflow_run_id : Option String)
    (runId : String) (result : WorkflowState) :
    TaskState × Option SuccessDoc × Option ErrorRespDoc × WorkflowState :=
  let step_id := step_detail.step_id
  if result.task_state = TaskState.failed then
    (TaskState.failed, none,
      some (ErrorRespDoc.fromOutput result.output step_id workflow_run_id (some runId)),
      { result with
        workflow_state := result.workflow_state.set "execution_phase" (Value.vstr "FAILED") })
  else if result.task_state = TaskState.canceled then
    (TaskState.canceled,
      some {
        step_completed := step_id, next_step := none,
        workflow_run_id := workflow_run_id, step_run_id := some runId,
        step_output := result.output, status := "canceled" },
      none,
      { result with
        workflow_state := result.workflow_state.set "execution_phase" (Value.vstr "CANCELED") })
  else if result.task_state = TaskState.working then
    (TaskState.working,
      some {
        step_completed := step_id, next_step := some step_detail.next_step_id,
        workflow_run_id := workflow_run_id, step_run_id := some runId,
        step_output := result.output, status := "working" },
      none, result)
  else if result.task_state = TaskState.input_required then
    (TaskState.input_required,
      some {
        step_completed := step_id, next_step := some step_detail.next_step_id,
        workflow_run_id := workflow_run_id, step_run_id := some runId,
        step_output := result.output, status := "input-required" },
      none, result)
  else
    (TaskState.completed,
      some {
        step_completed := step_id, next_step := some step_detail.next_step_id,
        workflow_run_id := workflow_run_id, step_run_id := some runId,
        step_output := result.output, status := "completed" },
      none, result)

/-- `process_workflow_run` from src/app/agents/workflow_decorators.py: the
journal wrapper around a step handler.  `freshId1`/`freshId2` stand for the
two `uuid4()` draws; `startedAt`/`completedAt` for the `datetime.now()`
reads.  In-place scratchpad mutation by a handler that then raises is not
modelled (it affects only the error row's snapshot column). -/
def process_workflow_run (freshId1 freshId2 : String) (startedAt completedAt : Nat)
    (handler : WorkflowState → Except Exn WorkflowState)
    (step_detail : StepDetail) (workflow_state : WorkflowState) (j : Journal) :
    Journal × Except Exn WorkflowState :=
  let step_id := step_detail.step_id
  let runId := if pyTruthyStr workflow_state.current_step_run_id then
      pyStr workflow_state.current_step_run_id
    else freshId1
  let s0 := { workflow_state with current_step_run_id := some runId }
  let j1 := upsertWith j
    { workflow_run_id := s0.workflow_run_id, step_run_id := runId,
      workflow_id := s0.workflow_id, step_id := step_id,
      started_at := startedAt, status := TaskState.working,
      workflow_state_col := SnapshotDoc.plain s0.workflow_state,
      created_at := startedAt } updInitial
  match handler s0 with
  | Except.ok result =>
      let outc := journalOutcome step_detail s0.workflow_run_id runId result
      let finalState := outc.2.2.2
      let j2 := upsertWith j1
        { workflow_run_id := s0.workflow_run_id, step_run_id := runId,
          workflow_id := s0.workflow_id, step_id := step_id,
          started_at := startedAt, completed_at := some completedAt,
          status := outc.1,
          workflow_state_col := SnapshotDoc.plain finalState.workflow_state,
          success_response := outc.2.1, error_response := outc.2.2.1,
          created_at := startedAt,
          updated_at := some completedAt, updated_by := some "system" } updCompletion
      let finalState2 := if finalState.task_state ≠ TaskState.input_required then
          { finalState with current_step_run_id := some freshId2 }
        else finalState
      (j2, Except.ok finalState2)
  | Except.error e =>
      let errData : ErrorRespDoc := ErrorRespDoc.fromExn e.msg
        (match step_detail.failure_message with
          | some m => m
          | none => "Step execution failed")
        step_id s0.workflow_run_id (some runId) e.etype
      let snap := SnapshotDoc.errorDoc s0.workflow_state s0.output s0.step_ids
        s0.next_step_ids s0.start_step_id s0.workflow_id s0.workflow_run_id
        (some runId) errData
      let j2 := upsertWith j1
        { workflow_run_id := s0.workflow_run_id, step_run_id := runId,
          workflow_id := s0.workflow_id, step_id := step_id,
          started_at := startedAt, completed_at := some completedAt,
          status := TaskState.failed,
          workflow_state_col := snap,
          error_response := some errData,
          created_at := startedAt,
          updated_at := some completedAt, updated_by := some "system" } updError
      (j2, Except.error e)

/-- Modelled from the spec: the inbound RPC payload (the AgentInputMessage
class lives in app/utils/agent_message.py, which is not present under
src/).  Fields per the spec: workflow-id, task-id (= workflow-run-id),
context-id, token, optional input text, optional input-data object, and
the advisory is-new-conversation boolean. -/
structure AgentInputMessage where
  workflow_id : String
  task_id : String
  context_id : String := ""
  token : String
  input : Option String := none
  input_data : Option Ctx := none
  is_new_conversation : Bool := true
  deriving DecidableEq, Repr

/-- Modelled from the spec: the outbound reply (AgentOutputMessage, also
from the absent app/utils/agent_message.py), projected from the terminal
state exactly as workflow_manager.process_workflow does. -/
structure AgentOutputMessage where
  output : Ctx := []
  task_state : TaskState := TaskState.working
  status : String := ""
  event_log : List String := []
  workflow_id : Option String := none
  workflow_name : Option String := none
  deriving DecidableEq, Repr

/-- The projection of `get_input_required_step`: the journal's latest
pending input-required row for a run, or none. -/
structure InputRequiredData where
  workflow_id : String
  step_id : String
  step_run_id : String
  workflow_state : Ctx
  deriving DecidableEq, Repr

/-- A workflow definition as returned by the catalogue. -/
structure Workflow where
  name : Option String := none
  workflow_exit_keywords : List String := []
  steps : List StepDetail := []
  deriving DecidableEq, Repr

/-- The ValueError raised when the catalogue returns no workflow. -/
def workflowNotFoundExn (workflow_id : String) : Exn :=
  { etype := "ValueError",
    msg := "Workflow " ++ workflow_id ++ " not found or access denied" }

/-- The workflow id the run operates on: adopted from the pending
input-required row when one exists, else the requested one. -/
def probe_workflow_id (probe : Option InputRequiredData) (agent_input : AgentInputMessage) :
    String :=
  match probe with
  | some d => d.workflow_id
  | none => agent_input.workflow_id

/-- Python truthiness of a dict value fetched with `.get` (used on
`workflow_state_data.get("workflow_name")`). -/
def pyTruthyVal (o : Option Value) : Bool :=
  match o with
  | none => false
  | some Value.vnull => false
  | some (Value.vstr s) => s ≠ ""
  | some (Value.vint n) => n ≠ 0
  | some (Value.vbool b) => b

/-- State seeding, workflow_manager.process_workflow lines 85-143: adopt
the pending row (start step, step-run id, snapshot, resume flag) when one
exists; derive the plan from the definition; default the start step to the
first step id that no step references as next; stamp workflow name/id into
a fresh scratchpad. -/
def seed_workflow_state (user_id : Option String) (user_roles : List String)
    (probe : Option InputRequiredData) (workflow : Workflow)
    (agent_input : AgentInputMessage) : WorkflowState :=
  let workflow_run_id := agent_input.task_id
  let workflow_id := probe_workflow_id probe agent_input
  let steps := workflow.steps
  let step_ids := steps.map (fun st => st.step_id)
  let next_step_ids := steps.filterMap (fun st => st.next_step_id)
  let start_step_id : Option String :=
    match probe with
    | some d => some d.step_id
    | none => step_ids.find? (fun sid => !next_step_ids.contains sid)
  let step_run_id : Option String :=
    match probe with
    | some d => some d.step_run_id
    | none => none
  let ws0 : Ctx :=
    match probe with
    | some d => d.workflow_state
    | none => []
  let ws : Ctx :=
    if pyTruthyVal (ws0.lookup "workflow_name") then ws0
    else (ws0.set "workflow_name" (optVal workflow.name)).set "workflow_id"
      (Value.vstr workflow_id)
  { workflow_id := some workflow_id,
    workflow_run_id := some workflow_run_id,
    workflow_name := workflow.name,
    worflow_exit_keywords := workflow.workflow_exit_keywords,
    input := agent_input.input,
    input_data := agent_input.input_data.getD [],
    workflow_state := ws,
    task_state := TaskState.working,
    output := [],
    current_step_run_id := step_run_id,
    step_ids := step_ids,
    next_step_ids := next_step_ids,
    start_step_id := start_step_id,
    steps := steps,
    is_new_conversation := probe.isNone,
    token := some agent_input.token,
    user_id := user_id,
    user_roles := user_roles }

/-- `process_workflow` from src/app/agents/workflow_manager.py, with its
collaborators as oracles: `get_user_info` (the identity tool call),
`get_input_required_step` (the journal resume probe),
`get_steps_by_workflow_id` (the role-scoped catalogue fetch) and
`runGraph` (build_graph + graph execution).  Exceptions raised anywhere
are re-raised by the except blocks, so they surface as `error`. -/
def process_workflow
    (get_user_info : String → Option String × List String)
    (get_input_required_step : String → Option InputRequiredData)
    (get_steps_by_workflow_id : String → List String → Option Workflow)
    (runGraph : WorkflowState → Except Exn WorkflowState)
    (agent_input : AgentInputMessage) : Except Exn AgentOutputMessage :=
  let info := get_user_info agent_input.token
  let probe := get_input_required_step agent_input.task_id
  match get_steps_by_workflow_id (probe_workflow_id probe agent_input) info.2 with
  | none => Except.error (workflowNotFoundExn (probe_workflow_id probe agent_input))
  | some workflow =>
      match runGraph (seed_workflow_state info.1 info.2 probe workflow agent_input) with
      | Except.error e => Except.error e
      | Except.ok final =>
          Except.ok {
            output := final.output,
            task_state := final.task_state,
            status := final.status,
            event_log := final.event_log,
            workflow_id := final.workflow_id,
            workflow_name := final.workflow_name }

/-- A rule that does not stop the loop: it lacks one of the two keys, or it
is skipped for missing variables, or its condition evaluates falsy. -/
def ruleNoFire (varsOf : String → List String) (evalCond : String → Ctx → Except String Bool)
    (context : Ctx) (r : Rule) : Bool :=
  match r.condition, r.go_to_step with
  | some cond, some _ =>
      if (varsOf cond).all (fun v => context.hasKey v) then
        match evalCond cond context with
        | Except.ok false => true
        | _ => false
      else true
  | _, _ => true

/-- A rule that fires: both keys present, all variables available, and the
condition evaluates truthy. -/
def ruleFires (varsOf : String → List String) (evalCond : String → Ctx → Except String Bool)
    (context : Ctx) (r : Rule) : Bool :=
  match r.condition, r.go_to_step with
  | some cond, some _ =>
      if (varsOf cond).all (fun v => context.hasKey v) then
        match evalCond cond context with
        | Except.ok true => true
        | _ => false
      else false
  | _, _ => false

/-- Replace a step's orchestration rules (for stating that a suffix of
rules after the winning one cannot influence the outcome). -/
def stepWithRules (step_detail : StepDetail) (rules : List Rule) : StepDetail :=
  { step_detail with
    user_interaction := { step_detail.user_interaction with orchestration_rules := some rules } }

/-- Concrete oracle instances for the closed counterexamples and
witnesses: a small fixed variable table and condition table standing for
parsed jinja2 templates. -/
def demoVarsOf (c : String) : List String :=
  if c = "condA" then ["a"]
  else if c = "condB" then ["b"]
  else if c = "boom" then ["a"]
  else []

/-- Concrete condition evaluation: `boom` raises, `condTrue` is truthy,
everything else is falsy. -/
def demoEvalCond (c : String) (_context : Ctx) : Except String Bool :=
  if c = "boom" then Except.error "name undefined_name is not defined"
  else if c = "condTrue" then Except.ok true
  else Except.ok false

/-- Identity template render for concrete runs. -/
def demoRenderT (t : String) (_context : Ctx) : String := t

/-- Concrete JSON parse that always fails (renders wrap as summaries). -/
def demoParseJson (_s : String) : Option Ctx := none

/-- The bundled USER_INPUT oracles for concrete runs. -/
def demoUiO : UiOracles :=
  { varsOf := demoVarsOf, evalCond := demoEvalCond,
    renderT := demoRenderT, parseJson := demoParseJson }

/-- Identity JSON-path resolution for concrete runs. -/
def demoResolve (params _doc : Ctx) : Ctx := params

/-- Trivial JSON-path extraction for concrete runs. -/
def demoExtract (_doc : Ctx) (_path : Value) : Value := Value.vnull

/-- Identity escaping for concrete runs. -/
def demoEscape (s : String) : String := s

/-- The bundled SYSTEM_ACTION oracles for a chosen tool outcome. -/
def demoSysO (outc : ToolOutcome) : SysOracles :=
  { resolve := demoResolve, extract := demoExtract, escape := demoEscape, outcome := outc }

/-- Concrete resume-turn state for the rule-cleanup counterexample: two
scratchpad variables, one per rule. -/
def stateC2 : WorkflowState :=
  { is_new_conversation := false, start_step_id := some "A",
    workflow_state := [("a", Value.vint 1), ("b", Value.vint 2)] }

/-- Concrete USER_INPUT step with two orchestration rules, neither of
which fires. -/
def stepC2 : StepDetail :=
  { step_id := "A",
    user_interaction :=
      { orchestration_rules := some
          [ { condition := some "condA", go_to_step := some "S1" },
            { condition := some "condB", go_to_step := some "S2" } ] } }

/-- The state `user_input_with_step` returns on `stepC2`/`stateC2`: only
the last rule's variable `b` is nulled; rule 1's variable `a` keeps its
value and is absent from input-data. -/
def stC2 : WorkflowState :=
  { stateC2 with
    workflow_state := [("a", Value.vint 1), ("b", Value.vnull)],
    input_data := [("b", Value.vnull)],
    task_state := TaskState.completed }

/-- Concrete resume-turn state for the first-match witness: variable `a`
present, `b` absent (so the first rule is skipped). -/
def stateC5 : WorkflowState :=
  { is_new_conversation := false, start_step_id := some "A",
    workflow_state := [("a", Value.vint 1)] }

/-- Concrete USER_INPUT step whose first rule is skipped for a missing
variable and whose second rule fires. -/
def stepC5 : StepDetail :=
  { step_id := "A",
    user_interaction :=
      { orchestration_rules := some
          [ { condition := some "condB", go_to_step := some "S1" },
            { condition := some "condTrue", go_to_step := some "S2" } ] } }

/-- Concrete resume-turn state for the condition-eval-failure run. -/
def stateC7 : WorkflowState :=
  { is_new_conversation := false, start_step_id := some "A",
    workflow_state := [("a", Value.vint 1)] }

/-- Concrete USER_INPUT step whose single rule's condition raises on
evaluation. -/
def stepC7 : StepDetail :=
  { step_id := "A",
    user_interaction :=
      { orchestration_rules := some
          [ { condition := some "boom", go_to_step := some "S1" } ] } }

/-- Concrete state carrying a pre-existing `token` scratchpad key. -/
def stateC3 : WorkflowState :=
  { workflow_state := [("token", Value.vstr "secret")], token := some "tok" }

/-- Concrete SYSTEM_ACTION step without inputs (resolution is skipped). -/
def stepC3 : StepDetail :=
  { step_id := "S", system_action_details := { name := some "toolX" } }

/-- Concrete SYSTEM_ACTION step with non-empty inputs. -/
def stepC3W : StepDetail :=
  { step_id := "S",
    system_action_details :=
      { name := some "toolX",
        inputs := some [("q", Value.vstr "$.foo")] } }

/-- The state the system handler returns on `stepC3W`/`stateC3` under a
tool timeout: the augmentation inserted and then deleted both keys, so the
pre-existing `token` entry is gone as well. -/
def stC3W : WorkflowState :=
  { stateC3 with
    workflow_state := [],
    task_state := TaskState.failed,
    output := [("summary", Value.vstr "Tool execution timeout: toolX")] }

/-- Concrete SYSTEM_ACTION step with a non-empty success_mapping. -/
def stepC9 : StepDetail :=
  { step_id := "S",
    system_action_details :=
      { name := some "toolX",
        success_mapping := [("k", Value.vstr "$.r")] } }

/-- A concrete exception for exercising the journal wrapper. -/
def demoExn : Exn := { etype := "ValueError", msg := "boom" }

/-- A concrete step handler that always raises. -/
def demoFailHandler : WorkflowState → Except Exn WorkflowState :=
  fun _ => Except.error demoExn

/-- Concrete state carrying a pending step-run id for the wrapper. -/
def stateC8 : WorkflowState :=
  { current_step_run_id := some "run-1", workflow_run_id := some "wfr-1" }

/-- Concrete state whose input text matches an exit keyword up to case. -/
def stateC4 : WorkflowState :=
  { input := some "Quit", worflow_exit_keywords := ["quit"],
    workflow_id := some "wf1", workflow_name := some "Demo",
    workflow_state := [("x", Value.vint 7)], input_data := [("k", Value.vstr "v")] }

end BotWorkflow

namespace BotWorkflow

/-- C1: for every step in edge-scope and every workflow state (with
non-degenerate, i.e. non-empty-string, routing ids, since the Python code
tests them by truthiness), the successor function of the conditional edge
decides exactly per the claimed priority: pending go-to-step-id is returned
and cleared; else input-required/failed/canceled pause to END; else a
configured next-step-id inside edge-scope is returned; else END. -/
theorem C1_successor_priority (step_ids : List String) (start_step_id : Option String)
    (next_step_id : Option String) (s : WorkflowState)
    (hgo : s.go_to_step_id ≠ some "") (hnext : next_step_id ≠ some "") :
    should_continue (step_ids_used_for_edges step_ids start_step_id) next_step_id s =
      successorSpec (step_ids_used_for_edges step_ids start_step_id) next_step_id s := by
  unfold should_continue successorSpec should_continue_status
  cases hg : s.go_to_step_id with
  | some t =>
      have ht : t ≠ "" := by intro h; exact hgo (by simp [hg, h])
      simp [ht]
  | none =>
      by_cases h1 : s.task_state = TaskState.input_required
      · simp [h1]
      · by_cases h2 : s.task_state = TaskState.failed ∨ s.task_state = TaskState.canceled
        · simp [h1, h2]
        · cases hn : next_step_id with
          | some n =>
              have hne : n ≠ "" := by intro h; exact hnext (by simp [hn, h])
              simp only [h1, h2, hne, if_false, ne_eq, not_false_iff, true_and]
              by_cases hmem : n ∈ step_ids_used_for_edges step_ids start_step_id <;>
                simp [hmem]
          | none => simp [h1, h2]

/-- Witness for C1 at a concrete scope, next step and state. -/
theorem C1_successor_priority_witness :
    should_continue (step_ids_used_for_edges ["A", "B"] (some "A")) (some "B")
        { task_state := TaskState.completed } =
      successorSpec (step_ids_used_for_edges ["A", "B"] (some "A")) (some "B")
        { task_state := TaskState.completed } :=
  C1_successor_priority ["A", "B"] (some "A") (some "B")
    { task_state := TaskState.completed } (by decide) (by decide)

lemma Ctx.lookup_set_self (c : Ctx) (k : String) (v : Value) :
    (c.set k v).lookup k = some v := by
  induction c with
  | nil => simp [Ctx.set, Ctx.lookup]
  | cons kv rest ih =>
      obtain ⟨k2, v2⟩ := kv
      by_cases h : k2 = k
      · simp [Ctx.set, Ctx.lookup, h]
      · simp [Ctx.set, Ctx.lookup, h, ih]

lemma Ctx.lookup_set_ne (c : Ctx) (k2 k : String) (v : Value) (h : k2 ≠ k) :
    (c.set k2 v).lookup k = c.lookup k := by
  induction c with
  | nil => simp [Ctx.set, Ctx.lookup, h]
  | cons kv rest ih =>
      obtain ⟨k3, v3⟩ := kv
      by_cases h3 : k3 = k2
      · subst h3; simp [Ctx.set, Ctx.lookup, h]
      · simp [Ctx.set, h3]
        by_cases h4 : k3 = k
        · simp [Ctx.lookup, h4]
        · simp [Ctx.lookup, h4, ih]

lemma lookup_nullOutVars (tvars : List String) (c : Ctx) (v : String)
    (h : v ∈ tvars ∨ c.lookup v = some Value.vnull) :
    (nullOutVars tvars c).lookup v = some Value.vnull := by
  induction tvars generalizing c with
  | nil =>
      rcases h with h | h
      · cases h
      · simpa [nullOutVars] using h
  | cons t rest ih =>
      have step : nullOutVars (t :: rest) c = nullOutVars rest (c.set t Value.vnull) := rfl
      rw [step]
      apply ih
      rcases h with h | h
      · rcases List.mem_cons.mp h with h | h
        · subst h
          exact Or.inr (Ctx.lookup_set_self c v Value.vnull)
        · exact Or.inl h
      · by_cases ht : t = v
        · subst ht
          exact Or.inr (Ctx.lookup_set_self c t Value.vnull)
        · exact Or.inr (by rw [Ctx.lookup_set_ne c t v Value.vnull ht]; exact h)

lemma user_input_resume (o : UiOracles) (step_detail : StepDetail) (s : WorkflowState)
    (hexit : exitHit s = false)
    (hres : resumeMode step_detail.step_id s = true)
    (hdecl : (ingestReply step_detail.user_interaction s).2 = false) :
    user_input_with_step o step_detail s =
      resumeRulesPhase o step_detail.user_interaction.orchestration_rules
        (ingestReply step_detail.user_interaction s).1 := by
  unfold user_input_with_step
  simp only [hexit, Bool.false_eq_true, if_false, hres, if_true, hdecl, ite_true, ite_false]

/-- C4: when the user's (non-empty) free text equals one of the workflow's
exit keywords up to case, the USER_INPUT handler cancels the run with the
terminated summary and returns at once: the returned state differs from
the incoming one only in task-state and output, so no reply ingestion and
no orchestration rule runs, for every oracle and step definition. -/
theorem C4_exit_keyword (o : UiOracles) (step_detail : StepDetail) (s : WorkflowState)
    (t : String) (h1 : s.input = some t) (h2 : t ≠ "")
    (h3 : pyLower t ∈ s.worflow_exit_keywords.map pyLower) :
    user_input_with_step o step_detail s =
      Except.ok { s with
        task_state := TaskState.canceled,
        output := [("summary", Value.vstr ("Workflow " ++ pyStr s.workflow_id ++ " ("
          ++ pyStr s.workflow_name ++ ") terminated."))] } := by
  have hx : exitHit s = true := by
    simp [exitHit, pyTruthyStr, pyStr, h1, h2, h3]
  simp [user_input_with_step, hx]

/-- Witness for C4 on a concrete state and keyword list. -/
theorem C4_exit_keyword_witness :
    user_input_with_step demoUiO { step_id := "A" } stateC4 =
      Except.ok { stateC4 with
        task_state := TaskState.canceled,
        output := [("summary", Value.vstr ("Workflow " ++ pyStr stateC4.workflow_id ++ " ("
          ++ pyStr stateC4.workflow_name ++ ") terminated."))] } :=
  C4_exit_keyword demoUiO { step_id := "A" } stateC4 "Quit" rfl (by decide) (by decide)

/-- C2 counterexample: on a resume turn with two evaluated rules (both
conditions render and evaluate falsy), only the second rule's variable `b`
is nulled; the first rule's variable `a` keeps its value in workflow-state
and is absent from input-data, contradicting the claim that every variable
referenced by the rules is nulled in both. -/
theorem C2_counterexample :
    user_input_with_step demoUiO stepC2 stateC2 = Except.ok stC2
    ∧ demoUiO.varsOf "condA" = ["a"]
    ∧ stC2.workflow_state.lookup "a" = some (Value.vint 1)
    ∧ stC2.input_data.lookup "a" = none := by
  refine ⟨?_, rfl, rfl, rfl⟩
  rfl

/-- C2 as amended: after a USER_INPUT resume turn that processes
orchestration rules, exactly the variables the loop leaves in
`template_variables` — those of the last rule whose condition was parsed
(the winning rule when one fires) — are set to null in both workflow-state
and input-data; variables referenced only by earlier rules are untouched. -/
theorem C2_amended (o : UiOracles) (step_detail : StepDetail) (s : WorkflowState)
    (rules : List Rule) (go : Option String) (tvars : List String)
    (hexit : exitHit s = false)
    (hres : resumeMode step_detail.step_id s = true)
    (hdecl : (ingestReply step_detail.user_interaction s).2 = false)
    (hrules : step_detail.user_interaction.orchestration_rules = some rules)
    (hne : rules ≠ [])
    (hpr : processRules o.varsOf o.evalCond rules
        ((ingestReply step_detail.user_interaction s).1).workflow_state none =
        Except.ok (go, some tvars)) :
    ∃ st, user_input_with_step o step_detail s = Except.ok st ∧
      ∀ v ∈ tvars, st.workflow_state.lookup v = some Value.vnull ∧
        st.input_data.lookup v = some Value.vnull := by
  rw [user_input_resume o step_detail s hexit hres hdecl]
  unfold resumeRulesPhase
  simp only [hrules, hne, hpr, ne_eq, not_false_iff, ite_true, if_true]
  cases go with
  | none =>
      refine ⟨_, rfl, ?_⟩
      intro v hv
      exact ⟨lookup_nullOutVars tvars _ v (Or.inl hv),
        lookup_nullOutVars tvars _ v (Or.inl hv)⟩
  | some tgt =>
      refine ⟨_, rfl, ?_⟩
      intro v hv
      exact ⟨lookup_nullOutVars tvars _ v (Or.inl hv),
        lookup_nullOutVars tvars _ v (Or.inl hv)⟩

/-- Witness for the amended C2 on the concrete two-rule turn. -/
theorem C2_amended_witness :
    ∃ st, user_input_with_step demoUiO stepC2 stateC2 = Except.ok st ∧
      ∀ v ∈ ["b"], st.workflow_state.lookup v = some Value.vnull ∧
        st.input_data.lookup v = some Value.vnull :=
  C2_amended demoUiO stepC2 stateC2
    [ { condition := some "condA", go_to_step := some "S1" },
      { condition := some "condB", go_to_step := some "S2" } ]
    none ["b"] rfl rfl rfl rfl (by decide) rfl

lemma processRules_cons_noFire (varsOf : String → List String)
    (evalCond : String → Ctx → Except String Bool) (context : Ctx) (r : Rule)
    (rest : List Rule) (lv : Option (List String))
    (h : ruleNoFire varsOf evalCond context r = true) :
    ∃ lv2, processRules varsOf evalCond (r :: rest) context lv =
      processRules varsOf evalCond rest context lv2 := by
  obtain ⟨oc, og⟩ := r
  cases oc with
  | none => exact ⟨lv, by simp [processRules]⟩
  | some cond =>
      cases og with
      | none => exact ⟨lv, by simp [processRules]⟩
      | some tgt =>
          simp only [ruleNoFire] at h
          by_cases hall : (varsOf cond).all (fun v => context.hasKey v) = true
          · rw [if_pos hall] at h
            cases he : evalCond cond context with
            | error e => rw [he] at h; simp at h
            | ok b =>
                cases b with
                | true => rw [he] at h; simp at h
                | false =>
                    exact ⟨some (varsOf cond), by simp [processRules, hall, he]⟩
          · exact ⟨some (varsOf cond), by simp [processRules, hall]⟩

lemma processRules_append_noFire (varsOf : String → List String)
    (evalCond : String → Ctx → Except String Bool) (context : Ctx)
    (pre rest : List Rule) (lv : Option (List String))
    (h : ∀ x ∈ pre, ruleNoFire varsOf evalCond context x = true) :
    ∃ lv2, processRules varsOf evalCond (pre ++ rest) context lv =
      processRules varsOf evalCond rest context lv2 := by
  induction pre generalizing lv with
  | nil => exact ⟨lv, rfl⟩
  | cons r pre ih =>
      obtain ⟨lv2, h2⟩ := processRules_cons_noFire varsOf evalCond context r (pre ++ rest) lv
        (h r (List.mem_cons_self r pre))
      obtain ⟨lv3, h3⟩ := ih lv2 (fun x hx => h x (List.mem_cons_of_mem r hx))
      exact ⟨lv3, by rw [List.cons_append, h2, h3]⟩

lemma processRules_fires_head (varsOf : String → List String)
    (evalCond : String → Ctx → Except String Bool) (context : Ctx) (r : Rule)
    (suf : List Rule) (lv : Option (List String))
    (h : ruleFires varsOf evalCond context r = true) :
    ∃ cond tgt, r.condition = some cond ∧ r.go_to_step = some tgt ∧
      processRules varsOf evalCond (r :: suf) context lv =
        Except.ok (some tgt, some (varsOf cond)) := by
  obtain ⟨oc, og⟩ := r
  cases oc with
  | none => simp [ruleFires] at h
  | some cond =>
      cases og with
      | none => simp [ruleFires] at h
      | some tgt =>
          simp only [ruleFires] at h
          by_cases hall : (varsOf cond).all (fun v => context.hasKey v) = true
          · rw [if_pos hall] at h
            cases he : evalCond cond context with
            | error e => rw [he] at h; simp at h
            | ok b =>
                cases b with
                | false => rw [he] at h; simp at h
                | true =>
                    exact ⟨cond, tgt, rfl, rfl, by simp [processRules, hall, he]⟩
          · rw [if_neg hall] at h; simp at h

lemma processRules_raises_head (varsOf : String → List String)
    (evalCond : String → Ctx → Except String Bool) (context : Ctx) (r : Rule)
    (suf : List Rule) (lv : Option (List String)) (cond tgt err : String)
    (hc : r.condition = some cond) (hg : r.go_to_step = some tgt)
    (hall : (varsOf cond).all (fun v => context.hasKey v) = true)
    (herr : evalCond cond context = Except.error err) :
    processRules varsOf evalCond (r :: suf) context lv =
      Except.error (ruleEvalExn cond err) := by
  obtain ⟨oc, og⟩ := r
  simp only at hc hg
  subst hc; subst hg
  simp [processRules, hall, herr]

/-- C5: on a USER_INPUT resume turn, rules are evaluated in list order:
any prefix of rules that do not fire (missing keys, skipped for a variable
absent from workflow-state, or a falsy condition) is passed over, the
first firing rule sets go-to-step-id to its go_to_step, and every rule
after it is irrelevant — the handler's result is unchanged under any
replacement of the suffix. -/
theorem C5_rule_order_first_match (o : UiOracles) (step_detail : StepDetail)
    (s : WorkflowState) (pre suf : List Rule) (r : Rule)
    (hexit : exitHit s = false)
    (hres : resumeMode step_detail.step_id s = true)
    (hdecl : (ingestReply step_detail.user_interaction s).2 = false)
    (hrules : step_detail.user_interaction.orchestration_rules = some (pre ++ r :: suf))
    (hpre : ∀ x ∈ pre, ruleNoFire o.varsOf o.evalCond
        ((ingestReply step_detail.user_interaction s).1).workflow_state x = true)
    (hr : ruleFires o.varsOf o.evalCond
        ((ingestReply step_detail.user_interaction s).1).workflow_state r = true) :
    (∃ st, user_input_with_step o step_detail s = Except.ok st ∧
      st.go_to_step_id = r.go_to_step) ∧
    ∀ suf2, user_input_with_step o (stepWithRules step_detail (pre ++ r :: suf2)) s =
      user_input_with_step o step_detail s := by
  obtain ⟨lv2, hP⟩ := processRules_append_noFire o.varsOf o.evalCond
    ((ingestReply step_detail.user_interaction s).1).workflow_state pre (r :: suf) none hpre
  obtain ⟨cond, tgt, hc, hg, hF⟩ := processRules_fires_head o.varsOf o.evalCond
    ((ingestReply step_detail.user_interaction s).1).workflow_state r suf lv2 hr
  have hchain : processRules o.varsOf o.evalCond (pre ++ r :: suf)
      ((ingestReply step_detail.user_interaction s).1).workflow_state none =
      Except.ok (some tgt, some (o.varsOf cond)) := by rw [hP, hF]
  have hne : (pre ++ r :: suf) ≠ [] := by simp
  have hrun := user_input_resume o step_detail s hexit hres hdecl
  constructor
  · rw [hrun]
    unfold resumeRulesPhase
    simp only [hrules, hne, hchain, ne_eq, not_false_iff, ite_true, if_true]
    exact ⟨_, rfl, by simp [hg]⟩
  · intro suf2
    obtain ⟨lv4, hP2⟩ := processRules_append_noFire o.varsOf o.evalCond
      ((ingestReply step_detail.user_interaction s).1).workflow_state pre (r :: suf2) none hpre
    obtain ⟨cond2, tgt2, hc2, hg2, hF2⟩ := processRules_fires_head o.varsOf o.evalCond
      ((ingestReply step_detail.user_interaction s).1).workflow_state r suf2 lv4 hr
    have hchain2 : processRules o.varsOf o.evalCond (pre ++ r :: suf2)
        ((ingestReply step_detail.user_interaction s).1).workflow_state none =
        Except.ok (some tgt, some (o.varsOf cond)) := by
      rw [hP2, hF2]
      rw [hc] at hc2
      rw [hg] at hg2
      cases hc2; cases hg2; rfl
    have hne2 : (pre ++ r :: suf2) ≠ [] := by simp
    have hrun2 := user_input_resume o (stepWithRules step_detail (pre ++ r :: suf2)) s
      hexit hres hdecl
    rw [hrun, hrun2]
    show resumeRulesPhase o (some (pre ++ r :: suf2))
        (ingestReply step_detail.user_interaction s).1 =
      resumeRulesPhase o step_detail.user_interaction.orchestration_rules
        (ingestReply step_detail.user_interaction s).1
    rw [hrules]
    unfold resumeRulesPhase
    simp only [hne, hne2, hchain, hchain2, ne_eq, not_false_iff, ite_true, if_true]

/-- Witness for C5: the first rule is skipped for its missing variable,
the second fires and routes to S2. -/
theorem C5_rule_order_first_match_witness :
    ∃ st, user_input_with_step demoUiO stepC5 stateC5 = Except.ok st ∧
      st.go_to_step_id = some "S2" := by
  have h := C5_rule_order_first_match demoUiO stepC5 stateC5
    [ { condition := some "condB", go_to_step := some "S1" } ] []
    { condition := some "condTrue", go_to_step := some "S2" }
    rfl rfl rfl rfl (by decide) (by decide)
  exact h.1

/-- C7 counterexample: on a concrete resume turn whose single rule's
condition evaluation raises, the handler does not produce a failed
terminal state with an output summary — it raises a ValueError, and the
journal wrapper around it re-raises the same exception, so the exception
propagates to the caller. -/
theorem C7_counterexample :
    user_input_with_step demoUiO stepC7 stateC7 =
      Except.error (ruleEvalExn "boom" "name undefined_name is not defined")
    ∧ (process_workflow_run "f1" "f2" 0 1 (user_input_with_step demoUiO stepC7)
        stepC7 stateC7 []).2 =
      Except.error (ruleEvalExn "boom" "name undefined_name is not defined") :=
  ⟨rfl, rfl⟩

/-- C7 as amended: when an orchestration rule's condition renders but its
evaluation raises, the USER_INPUT handler raises a ValueError wrapping the
evaluation error instead of returning any state: the exception propagates
out of the handler (the journal wrapper then records a failed row and
re-raises it), so no failed terminal with an output summary is produced. -/
theorem C7_condition_eval_raise (o : UiOracles) (step_detail : StepDetail)
    (s : WorkflowState) (pre suf : List Rule) (r : Rule) (cond tgt err : String)
    (hexit : exitHit s = false)
    (hres : resumeMode step_detail.step_id s = true)
    (hdecl : (ingestReply step_detail.user_interaction s).2 = false)
    (hrules : step_detail.user_interaction.orchestration_rules = some (pre ++ r :: suf))
    (hpre : ∀ x ∈ pre, ruleNoFire o.varsOf o.evalCond
        ((ingestReply step_detail.user_interaction s).1).workflow_state x = true)
    (hc : r.condition = some cond) (hg : r.go_to_step = some tgt)
    (hall : (o.varsOf cond).all
        (fun v => ((ingestReply step_detail.user_interaction s).1).workflow_state.hasKey v)
        = true)
    (herr : o.evalCond cond
        ((ingestReply step_detail.user_interaction s).1).workflow_state =
        Except.error err) :
    user_input_with_step o step_detail s = Except.error (ruleEvalExn cond err) := by
  obtain ⟨lv2, hP⟩ := processRules_append_noFire o.varsOf o.evalCond
    ((ingestReply step_detail.user_interaction s).1).workflow_state pre (r :: suf) none hpre
  have hF := processRules_raises_head o.varsOf o.evalCond
    ((ingestReply step_detail.user_interaction s).1).workflow_state r suf lv2 cond tgt err
    hc hg hall herr
  have hchain : processRules o.varsOf o.evalCond (pre ++ r :: suf)
      ((ingestReply step_detail.user_interaction s).1).workflow_state none =
      Except.error (ruleEvalExn cond err) := by rw [hP, hF]
  have hne : (pre ++ r :: suf) ≠ [] := by simp
  rw [user_input_resume o step_detail s hexit hres hdecl]
  unfold resumeRulesPhase
  simp only [hrules, hne, hchain, ne_eq, not_false_iff, ite_true, if_true]

/-- Witness for the amended C7 on the concrete raising rule. -/
theorem C7_condition_eval_raise_witness :
    user_input_with_step demoUiO stepC7 stateC7 =
      Except.error (ruleEvalExn "boom" "name undefined_name is not defined") :=
  C7_condition_eval_raise demoUiO stepC7 stateC7 []
    [] { condition := some "boom", go_to_step := some "S1" }
    "boom" "S1" "name undefined_name is not defined"
    rfl rfl rfl rfl (by decide) rfl rfl (by decide) rfl

lemma Ctx.hasKey_set (c : Ctx) (k2 : String) (v : Value) (k : String) :
    (c.set k2 v).hasKey k = if k2 = k then true else c.hasKey k := by
  induction c with
  | nil => simp [Ctx.set, Ctx.hasKey]
  | cons kv rest ih =>
      obtain ⟨k3, v3⟩ := kv
      by_cases h3 : k3 = k2
      · subst h3
        by_cases h4 : k3 = k
        · subst h4
          simp [Ctx.set, Ctx.hasKey]
        · simp [Ctx.set, Ctx.hasKey, h4]
      · by_cases h4 : k3 = k
        · subst h4
          have h5 : ¬k2 = k3 := fun h => h3 h.symm
          simp [Ctx.set, Ctx.hasKey, h3, h5]
        · simp [Ctx.set, Ctx.hasKey, h3, h4, ih]

lemma Ctx.hasKey_erase (c : Ctx) (k2 k : String) :
    (c.erase k2).hasKey k = if k2 = k then false else c.hasKey k := by
  induction c with
  | nil => simp [Ctx.erase, Ctx.hasKey]
  | cons kv rest ih =>
      obtain ⟨k3, v3⟩ := kv
      by_cases h3 : k3 = k2
      · subst h3
        by_cases h4 : k3 = k
        · subst h4
          simp [Ctx.erase, Ctx.hasKey, ih]
        · simp [Ctx.erase, Ctx.hasKey, h4, ih]
      · by_cases h4 : k3 = k
        · subst h4
          have h5 : ¬k2 = k3 := fun h => h3 h.symm
          simp [Ctx.erase, Ctx.hasKey, h3, h5]
        · simp [Ctx.erase, Ctx.hasKey, h3, h4, ih]

lemma hasKey_applyOutputMapping (extract : Ctx → Value → Value) (escape : String → String)
    (m reply : Ctx) (ws : Ctx) (k : String)
    (hm : ∀ kv ∈ m, kv.1 ≠ k) (h : ws.hasKey k = false) :
    (applyOutputMapping extract escape m reply ws).hasKey k = false := by
  induction m generalizing ws with
  | nil => simpa [applyOutputMapping] using h
  | cons kv rest ih =>
      have step : applyOutputMapping extract escape (kv :: rest) reply ws =
          applyOutputMapping extract escape rest reply
            (ws.set kv.1 (match extract reply kv.2 with
              | Value.vstr s => Value.vstr (escape s)
              | v => v)) := rfl
      rw [step]
      apply ih
      · exact fun x hx => hm x (List.mem_cons_of_mem kv hx)
      · rw [Ctx.hasKey_set]
        simp [hm kv (List.mem_cons_self kv rest), h]

/-- C3 counterexample: a SYSTEM_ACTION step with empty inputs skips the
token augmentation entirely, so a `token` key already present in
workflow-state survives the step — the claim that after any SYSTEM_ACTION
step workflow-state contains neither key fails. -/
theorem C3_counterexample :
    system_control_with_step (demoSysO (ToolOutcome.reply [])) stepC3 stateC3 =
      Except.ok { stateC3 with task_state := TaskState.completed }
    ∧ ({ stateC3 with task_state := TaskState.completed } :
        WorkflowState).workflow_state.hasKey "token" = true :=
  ⟨rfl, rfl⟩

/-- C3 as amended: after a SYSTEM_ACTION step with non-empty (truthy)
inputs that returns a state, workflow-state contains neither `token` nor
`user_id`: both keys are added only for the duration of JSON-path
parameter resolution and deleted immediately after, before the tool is
called — provided the step's own output_mapping does not write those keys
back.  (With empty inputs the augmentation never happens and pre-existing
keys survive, per the counterexample.) -/
theorem C3_token_scrub (o : SysOracles) (step_detail : StepDetail) (s : WorkflowState)
    (p : Ctx) (st : WorkflowState)
    (hinp : step_detail.system_action_details.inputs = some p) (hp : p ≠ [])
    (hout : ∀ kv ∈ step_detail.system_action_details.output_mapping.getD [],
      kv.1 ≠ "token" ∧ kv.1 ≠ "user_id")
    (hok : system_control_with_step o step_detail s = Except.ok st) :
    st.workflow_state.hasKey "token" = false ∧
      st.workflow_state.hasKey "user_id" = false := by
  have hws : (resolveInputsPhase o.resolve step_detail.system_action_details s).1.workflow_state
      = (((s.workflow_state.set "token" (optVal s.token)).set "user_id"
        (optVal s.user_id)).erase "token").erase "user_id" := by
    unfold resolveInputsPhase
    simp [hinp, hp]
  have hkey1 : (resolveInputsPhase o.resolve
      step_detail.system_action_details s).1.workflow_state.hasKey "token" = false := by
    rw [hws, Ctx.hasKey_erase, Ctx.hasKey_erase]
    simp
  have hkey2 : (resolveInputsPhase o.resolve
      step_detail.system_action_details s).1.workflow_state.hasKey "user_id" = false := by
    rw [hws, Ctx.hasKey_erase]
    simp
  have hphaseKeys : ∀ (doc : Ctx) (k : String),
      (∀ kv ∈ step_detail.system_action_details.output_mapping.getD [], kv.1 ≠ k) →
      (resolveInputsPhase o.resolve
        step_detail.system_action_details s).1.workflow_state.hasKey k = false →
      (outputMappingPhase o.extract o.escape step_detail.system_action_details.output_mapping
        doc (resolveInputsPhase o.resolve
          step_detail.system_action_details s).1).workflow_state.hasKey k = false := by
    intro doc k hm h
    cases hom : step_detail.system_action_details.output_mapping with
    | none => simpa [outputMappingPhase, hom] using h
    | some m =>
        by_cases hme : m = []
        · subst hme
          simpa [outputMappingPhase, hom] using h
        · simp only [outputMappingPhase, hom, ne_eq, hme, not_false_iff, ite_true, if_pos]
          exact hasKey_applyOutputMapping o.extract o.escape m doc _ k
            (fun kv hkv => hm kv (by rw [hom]; exact hkv)) h
  simp only [system_control_with_step] at hok
  split at hok
  · cases hok
    exact ⟨hkey1, hkey2⟩
  · cases hok
    exact ⟨hkey1, hkey2⟩
  · split at hok
    · cases hok
      exact ⟨hkey1, hkey2⟩
    · split at hok
      · cases hok
      · rename_i doc hnoterr hnosm
        cases hok
        exact ⟨hphaseKeys _ "token" (fun kv hkv => (hout kv hkv).1) hkey1,
          hphaseKeys _ "user_id" (fun kv hkv => (hout kv hkv).2) hkey2⟩

/-- Witness for the amended C3: non-empty inputs and a tool timeout; the
returned state has lost even the pre-existing `token` scratchpad key. -/
theorem C3_token_scrub_witness :
    stC3W.workflow_state.hasKey "token" = false ∧
      stC3W.workflow_state.hasKey "user_id" = false :=
  C3_token_scrub (demoSysO ToolOutcome.timeout) stepC3W stateC3
    [("q", Value.vstr "$.foo")] stC3W rfl (by decide) (by simp [stepC3W]) rfl

/-- C6: when the tool invocation of a SYSTEM_ACTION step times out, the
handler returns a failed state whose output is exactly the timeout
summary, and whose remaining fields are those of the post-resolution
state: no error, success, or output mapping has been applied. -/
theorem C6_tool_timeout (o : SysOracles) (step_detail : StepDetail) (s : WorkflowState)
    (h : o.outcome = ToolOutcome.timeout) :
    system_control_with_step o step_detail s =
      Except.ok { (resolveInputsPhase o.resolve step_detail.system_action_details s).1 with
        task_state := TaskState.failed,
        output := [("summary", Value.vstr ("Tool execution timeout: "
          ++ pyStr step_detail.system_action_details.name))] } := by
  unfold system_control_with_step
  rw [h]

/-- Witness for C6 on a concrete step and state. -/
theorem C6_tool_timeout_witness :
    system_control_with_step (demoSysO ToolOutcome.timeout) stepC3W stateC3 =
      Except.ok { (resolveInputsPhase (demoSysO ToolOutcome.timeout).resolve
          stepC3W.system_action_details stateC3).1 with
        task_state := TaskState.failed,
        output := [("summary", Value.vstr ("Tool execution timeout: "
          ++ pyStr stepC3W.system_action_details.name))] } :=
  C6_tool_timeout (demoSysO ToolOutcome.timeout) stepC3W stateC3 rfl

/-- C9: a SYSTEM_ACTION step with a non-empty success_mapping raises
AttributeError after a successful tool call (no mapped error status):
the WorkflowState dataclass declares no `inputs` field, so the handler
errors out before output_mapping is applied and before completion. -/
theorem C9_success_mapping_attribute_error (o : SysOracles) (step_detail : StepDetail)
    (s : WorkflowState) (doc : Ctx)
    (hreply : o.outcome = ToolOutcome.reply doc)
    (hnoerr : (o.resolve step_detail.system_action_details.error_mapping doc).lookup
      "error_status" ≠ some (Value.vstr "error"))
    (hsm : step_detail.system_action_details.success_mapping ≠ []) :
    system_control_with_step o step_detail s = Except.error attributeErrorNoInputs := by
  simp only [system_control_with_step, hreply]
  rw [if_neg hnoerr, if_pos (by simp [hsm])]

/-- Witness for C9 on a concrete step with a one-entry success_mapping. -/
theorem C9_success_mapping_attribute_error_witness :
    system_control_with_step (demoSysO (ToolOutcome.reply [])) stepC9 stateC3 =
      Except.error attributeErrorNoInputs :=
  C9_success_mapping_attribute_error (demoSysO (ToolOutcome.reply [])) stepC9 stateC3 []
    rfl (by decide) (by decide)

lemma find?_append_of_none (p : JournalRow → Bool) (l1 l2 : Journal)
    (h : l1.find? p = none) : (l1 ++ l2).find? p = l2.find? p := by
  induction l1 with
  | nil => rfl
  | cons a l ih =>
      cases hpa : p a with
      | true => rw [List.find?_cons_of_pos _ hpa] at h; cases h
      | false =>
          rw [List.find?_cons_of_neg _ (by simp [hpa])] at h
          rw [List.cons_append, List.find?_cons_of_neg _ (by simp [hpa])]
          exact ih h

lemma find?_map_update (j : Journal) (r : JournalRow)
    (upd : JournalRow → JournalRow → JournalRow)
    (hk : ∀ old, (upd old r).step_run_id = old.step_run_id)
    (hany : j.any (fun row => row.step_run_id = r.step_run_id) = true) :
    ∃ old, old.step_run_id = r.step_run_id ∧
      (j.map (fun row => if row.step_run_id = r.step_run_id then upd row r else row)).find?
        (fun row => row.step_run_id = r.step_run_id) = some (upd old r) := by
  induction j with
  | nil => simp at hany
  | cons row rest ih =>
      by_cases hrow : row.step_run_id = r.step_run_id
      · refine ⟨row, hrow, ?_⟩
        rw [List.map_cons, if_pos hrow]
        rw [List.find?_cons_of_pos]
        rw [hk row]
        simp [hrow]
      · have hany2 : rest.any (fun row => row.step_run_id = r.step_run_id) = true := by
          simpa [List.any_cons, hrow] using hany
        obtain ⟨old, h1, h2⟩ := ih hany2
        refine ⟨old, h1, ?_⟩
        rw [List.map_cons, if_neg hrow]
        rw [List.find?_cons_of_neg]
        · exact h2
        · simp [hrow]

lemma findRow_upsertError (j : Journal) (r : JournalRow) :
    ∃ row, findRow (upsertWith j r updError) r.step_run_id = some row ∧
      row.status = r.status ∧ row.completed_at = r.completed_at ∧
      row.error_response = r.error_response := by
  unfold upsertWith
  by_cases hany : j.any (fun row => row.step_run_id = r.step_run_id) = true
  · rw [if_pos hany]
    obtain ⟨old, h1, h2⟩ := find?_map_update j r updError (fun old => rfl) hany
    exact ⟨updError old r, h2, rfl, rfl, rfl⟩
  · rw [if_neg hany]
    have hnone : j.find? (fun row => row.step_run_id = r.step_run_id) = none := by
      rw [List.find?_eq_none]
      intro x hx
      simp only [decide_eq_true_eq]
      intro hxe
      exact hany (List.any_eq_true.mpr ⟨x, hx, by simp [hxe]⟩)
    refine ⟨r, ?_, rfl, rfl, rfl⟩
    unfold findRow
    rw [find?_append_of_none _ j [r] hnone]
    rw [List.find?_cons_of_pos]
    simp

/-- C8: when a step handler raises, the journal wrapper upserts a row
keyed by the state's current step-run id with status failed, the
completion timestamp, and the exception's text and type inside the
error-response document, and then re-raises the same exception. -/
theorem C8_journal_error_row (f1 f2 : String) (t1 t2 : Nat)
    (handler : WorkflowState → Except Exn WorkflowState)
    (step_detail : StepDetail) (s : WorkflowState) (j : Journal) (rid : String) (e : Exn)
    (hid : s.current_step_run_id = some rid) (hrid : rid ≠ "")
    (herr : handler { s with current_step_run_id := some rid } = Except.error e) :
    (process_workflow_run f1 f2 t1 t2 handler step_detail s j).2 = Except.error e ∧
    ∃ row, findRow (process_workflow_run f1 f2 t1 t2 handler step_detail s j).1 rid =
        some row
      ∧ row.status = TaskState.failed
      ∧ row.completed_at = some t2
      ∧ row.error_response = some (ErrorRespDoc.fromExn e.msg
          (match step_detail.failure_message with
            | some m => m
            | none => "Step execution failed")
          step_detail.step_id s.workflow_run_id (some rid) e.etype) := by
  have htr : pyTruthyStr s.current_step_run_id = true := by
    rw [hid]
    simp [pyTruthyStr, hrid]
  have hps : pyStr s.current_step_run_id = rid := by rw [hid]; rfl
  simp only [process_workflow_run, htr, if_true, ite_true, hps, herr]
  exact ⟨trivial, findRow_upsertError _ _⟩

/-- Witness for C8: a handler that always raises, on a state with a
pending step-run id. -/
theorem C8_journal_error_row_witness :
    (process_workflow_run "f1" "f2" 3 4 demoFailHandler { step_id := "S" } stateC8 []).2 =
      Except.error demoExn ∧
    ∃ row, findRow (process_workflow_run "f1" "f2" 3 4 demoFailHandler
        { step_id := "S" } stateC8 []).1 "run-1" = some row
      ∧ row.status = TaskState.failed
      ∧ row.completed_at = some 4
      ∧ row.error_response = some (ErrorRespDoc.fromExn demoExn.msg
          (match ({ step_id := "S" } : StepDetail).failure_message with
            | some m => m
            | none => "Step execution failed")
          "S" stateC8.workflow_run_id (some "run-1") demoExn.etype) :=
  C8_journal_error_row "f1" "f2" 3 4 demoFailHandler { step_id := "S" } stateC8 []
    "run-1" demoExn rfl (by decide) rfl

/-- C10: the run's is-new-conversation flag is computed solely from the
journal resume probe — the seeded state's flag is true exactly when the
probe returns no pending input-required row — and the advisory
is-new-conversation field of the inbound payload is never read: flipping
it changes neither the seeded state nor the whole of process_workflow for
any oracles. -/
theorem C10_advisory_flag_ignored :
    (∀ (user_id : Option String) (user_roles : List String)
        (probe : Option InputRequiredData) (workflow : Workflow)
        (a : AgentInputMessage) (v : Bool),
      seed_workflow_state user_id user_roles probe workflow
          { a with is_new_conversation := v } =
        seed_workflow_state user_id user_roles probe workflow a ∧
      (seed_workflow_state user_id user_roles probe workflow a).is_new_conversation =
        probe.isNone) ∧
    (∀ (get_user_info : String → Option String × List String)
        (get_input_required_step : String → Option InputRequiredData)
        (get_steps_by_workflow_id : String → List String → Option Workflow)
        (runGraph : WorkflowState → Except Exn WorkflowState)
        (a : AgentInputMessage) (v : Bool),
      process_workflow get_user_info get_input_required_step get_steps_by_workflow_id
          runGraph { a with is_new_conversation := v } =
        process_workflow get_user_info get_input_required_step get_steps_by_workflow_id
          runGraph a) :=
  ⟨fun _ _ _ _ _ _ => ⟨rfl, rfl⟩, fun _ _ _ _ _ _ => rfl⟩

end BotWorkflow
